import Mathlib

/-
Verification of the load-data core of GHEtool (GHEtoolComp snapshot):
`HourlyGeothermalLoad` from
`src/GHEtool/VariableClasses/LoadData/GeothermalLoad/HourlyGeothermalLoad.py`
and the abstract `_LoadData` contract.

Numbers are modelled as rationals.  Container kinds matter to the code
(`isinstance(load_array, (np.ndarray, list, tuple))`, and the setters store the
object that was passed without converting it), so stored loads are modelled as
`PyObj` values; elements are `PyVal` (a number or a string, the latter only
because `np.min(...) < 0` raises a `TypeError` on a string-valued minimum).
Fallible operations return `Except PyErr`.
-/

set_option linter.unusedVariables false

namespace GHEtool

/-- An element of a Python load container: a number (modelled as a rational) or a
string.  Strings are modelled because numpy coerces a container holding any
string to a string array, and comparing its minimum with `0` raises. -/
inductive PyVal where
  | num (q : ℚ)
  | str (s : String)
deriving DecidableEq, Repr

/-- Whether the element is a string. -/
def PyVal.isStr : PyVal → Bool
  | .num _ => false
  | .str _ => true

/-- Numeric value of an element (junk `0` on strings; arithmetic is only ever
performed after the string cases have errored out). -/
def PyVal.toRat : PyVal → ℚ
  | .num q => q
  | .str _ => 0

/-- A Python object handed to the load setters or stored in an instance:
a numpy array, a list, a tuple, or a numeric scalar. -/
inductive PyObj where
  | ndarray (xs : List PyVal)
  | pylist (xs : List PyVal)
  | pytuple (xs : List PyVal)
  | scalar (q : ℚ)
deriving DecidableEq, Repr

/-- Elements of a sequence container; `none` exactly when the object is not an
`np.ndarray`, `list` or `tuple` (the `isinstance` test of `_check_input`). -/
def PyObj.elems : PyObj → Option (List PyVal)
  | .ndarray xs => some xs
  | .pylist xs => some xs
  | .pytuple xs => some xs
  | .scalar _ => none

/-- Python exceptions raised by the modelled code: `ValueError` (failed load
validation, numpy broadcast mismatch), `TypeError` (unsupported operand
types), and `AttributeError` (accessing a missing attribute, e.g.
`other.__add__` on an object that has no `__add__`).  The spec calls the
`ValueError` kind `InvalidLoadInput` and the `TypeError` kind
`IncompatibleOperand`. -/
inductive PyErr where
  | valueError
  | typeError
  | attributeError
deriving DecidableEq, Repr

/-- A list of rationals as a list of numeric Python elements. -/
def numList (xs : List ℚ) : List PyVal := xs.map PyVal.num

/-- Value of `np.min` on a nonempty numeric sequence.  (The `[]` case is never
reached in `_check_input`: the length test comes first.) -/
def np_min : List ℚ → ℚ
  | [] => 0
  | x :: l => l.foldl min x

/-- Translation of `HourlyGeothermalLoad._check_input` (lines 55-81):
1) the input must be an `np.ndarray`, `list` or `tuple`, else `False`;
2) its length must be 8760, else `False`;
3) `np.min(load_array) < 0` must be false, else `False`; otherwise `True`.
For step 3, if the container (of length 8760) holds any string, numpy coerces
the whole container to strings, `np.min` returns a string, and the comparison
of that string with `0` raises a `TypeError`; this is the `.error` branch. -/
def _check_input (load_array : PyObj) : Except PyErr Bool :=
  match load_array.elems with
  | none => .ok false
  | some xs =>
    if xs.length ≠ 8760 then .ok false
    else if xs.any PyVal.isStr then .error .typeError
    else if np_min (xs.map PyVal.toRat) < 0 then .ok false
    else .ok true

/-- Python `+` on the objects that reach it in this code, following Python and
numpy semantics: `list + list` and `tuple + tuple` concatenate; any combination
in which one side is an `ndarray` and the other an `ndarray`, `list` or `tuple`
adds elementwise (a `TypeError` on string entries, a `ValueError` on a length
mismatch — numpy's broadcast of a length-1 operand is not modelled, since every
array stored by this class has length 8760); `ndarray + scalar` broadcasts the
scalar; `scalar + scalar` adds; everything else (e.g. `list + float`, the case
reached by the heating getter on a stored plain list) raises a `TypeError`. -/
def py_add (x y : PyObj) : Except PyErr PyObj :=
  match x, y with
  | .pylist a, .pylist b => .ok (.pylist (a ++ b))
  | .pytuple a, .pytuple b => .ok (.pytuple (a ++ b))
  | .ndarray a, .ndarray b
  | .ndarray a, .pylist b
  | .ndarray a, .pytuple b
  | .pylist a, .ndarray b
  | .pytuple a, .ndarray b =>
    if a.any PyVal.isStr || b.any PyVal.isStr then .error .typeError
    else if a.length ≠ b.length then .error .valueError
    else .ok (.ndarray (List.zipWith (fun u v => PyVal.num (u.toRat + v.toRat)) a b))
  | .ndarray a, .scalar c
  | .scalar c, .ndarray a =>
    if a.any PyVal.isStr then .error .typeError
    else .ok (.ndarray (a.map (fun v => PyVal.num (v.toRat + c))))
  | .scalar p, .scalar q => .ok (.scalar (p + q))
  | _, _ => .error .typeError

/-- Elementwise `-` as used by `imbalance` (`hourly_cooling_load -
hourly_heating_load`): defined for the array-like combinations, a `TypeError`
otherwise (in particular `list - list` raises in Python). -/
def py_sub (x y : PyObj) : Except PyErr PyObj :=
  match x, y with
  | .ndarray a, .ndarray b
  | .ndarray a, .pylist b
  | .ndarray a, .pytuple b
  | .pylist a, .ndarray b
  | .pytuple a, .ndarray b =>
    if a.any PyVal.isStr || b.any PyVal.isStr then .error .typeError
    else if a.length ≠ b.length then .error .valueError
    else .ok (.ndarray (List.zipWith (fun u v => PyVal.num (u.toRat - v.toRat)) a b))
  | _, _ => .error .typeError

/-- Numeric series of a container, as read by `np.sum` and friends: the numeric
entries when all entries are numeric, an error otherwise. -/
def PyObj.toSeries : PyObj → Except PyErr (List ℚ)
  | .ndarray xs | .pylist xs | .pytuple xs =>
    if xs.any PyVal.isStr then .error .typeError else .ok (xs.map PyVal.toRat)
  | .scalar _ => .error .typeError

/-- State of a `HourlyGeothermalLoad` instance.  `_hourly_heating_load`,
`_hourly_cooling_load` (the raw stored loads — the setters store the object
that was passed, whatever its container kind), `simulation_period` and `dhw`
are the fields written by `HourlyGeothermalLoad.__init__`.

The remaining fields are modelled from the spec: they belong to the `BaseClass`
configuration that is not among the given sources.  The spec describes
`start_month` as an integer in [1,12] owned by the base contract (default: the
year starts in January), `UPM` (`hours_per_month`) as a fixed ordered sequence
of 12 integers summing to 8760, injected configuration, and `all_months_equal`
as the flag of the uniform 8760/12-hours-per-month mode. -/
structure HourlyGeothermalLoad where
  _hourly_heating_load : PyObj
  _hourly_cooling_load : PyObj
  simulation_period : ℕ
  dhw : ℚ
  start_month : ℕ
  UPM : List ℕ
  all_months_equal : Bool
deriving DecidableEq, Repr

namespace HourlyGeothermalLoad

/-- Modelled from the spec: the default `hours_per_month` of the `BaseClass`
configuration — non-leap-year hour counts per month, summing to 8760. -/
def UPM_default : List ℕ := [744, 672, 744, 720, 744, 720, 744, 744, 720, 744, 720, 744]

/-- The array `np.zeros(8760)`. -/
def zeros8760 : PyObj := .ndarray (numList (List.replicate 8760 0))

/-- Setter of the `hourly_heating_load` property (lines 95-118), to which
`set_hourly_heating` (lines 120-139) delegates: if `_check_input` accepts the
load it is stored as passed (no conversion, no copy); otherwise `ValueError`
is raised and the instance is left untouched (in this explicit-state
translation an error simply produces no successor state). -/
def set_hourly_heating (self : HourlyGeothermalLoad) (load : PyObj) :
    Except PyErr HourlyGeothermalLoad :=
  match _check_input load with
  | .error e => .error e
  | .ok true => .ok { self with _hourly_heating_load := load }
  | .ok false => .error .valueError

/-- Setter of the `hourly_cooling_load` property (lines 153-176), to which
`set_hourly_cooling` (lines 178-197) delegates. -/
def set_hourly_cooling (self : HourlyGeothermalLoad) (load : PyObj) :
    Except PyErr HourlyGeothermalLoad :=
  match _check_input load with
  | .error e => .error e
  | .ok true => .ok { self with _hourly_cooling_load := load }
  | .ok false => .error .valueError

/-- Translation of `HourlyGeothermalLoad._start_hour` (lines 388-398):
`np.sum([self.UPM[i] for i in range(self.start_month - 1)])`, the number of
hours in the months preceding the start month. -/
def _start_hour (self : HourlyGeothermalLoad) : ℕ :=
  (self.UPM.take (self.start_month - 1)).sum

/-- Translation of `correct_for_start_month` (lines 400-417): the identity for
`start_month == 1`, otherwise
`np.concatenate((array[self._start_hour:], array[:self._start_hour]))` — a
cyclic left-rotation, returned as a fresh `ndarray` (slicing plus
`np.concatenate` works on arrays, lists and tuples alike; a scalar is not
subscriptable and raises a `TypeError`). -/
def correct_for_start_month (self : HourlyGeothermalLoad) (array : PyObj) :
    Except PyErr PyObj :=
  if self.start_month = 1 then .ok array
  else
    match array.elems with
    | none => .error .typeError
    | some xs =>
      .ok (.ndarray (xs.drop self._start_hour ++ xs.take self._start_hour))

/-- Getter of `hourly_heating_load` (lines 83-93):
`self.correct_for_start_month(self._hourly_heating_load + self.dhw / 8760)`. -/
def hourly_heating_load (self : HourlyGeothermalLoad) : Except PyErr PyObj := do
  let withDhw ← py_add self._hourly_heating_load (.scalar (self.dhw / 8760))
  self.correct_for_start_month withDhw

/-- Getter of `hourly_cooling_load` (lines 141-151):
`self.correct_for_start_month(self._hourly_cooling_load)`. -/
def hourly_cooling_load (self : HourlyGeothermalLoad) : Except PyErr PyObj :=
  self.correct_for_start_month self._hourly_cooling_load

/-- The conversion `np.array(...)` applied by `__init__` to a given load:
arrays, lists and tuples all become an `ndarray` with the same elements.
(`np.array` of a scalar gives a 0-d array; it is kept as a scalar here, which
the claims never exercise — no claim constructs a load from a scalar.) -/
def np_array : PyObj → PyObj
  | .ndarray xs => .ndarray xs
  | .pylist xs => .ndarray xs
  | .pytuple xs => .ndarray xs
  | .scalar q => .scalar q

/-- Translation of `HourlyGeothermalLoad.__init__` (lines 26-53): the base
constructor records the simulation period (and the default `BaseClass`
configuration, modelled from the spec: January start, default calendar); the
two stored loads are first zero-initialised, then set through the validating
property setters — a missing load defaults to `np.zeros(8760)`, a given one is
passed through `np.array` — and finally `dhw` is assigned. -/
def init (heating_load cooling_load : Option PyObj) (simulation_period : ℕ) (dhw : ℚ) :
    Except PyErr HourlyGeothermalLoad := do
  let st0 : HourlyGeothermalLoad := {
    _hourly_heating_load := zeros8760
    _hourly_cooling_load := zeros8760
    simulation_period := simulation_period
    dhw := 0
    start_month := 1
    UPM := UPM_default
    all_months_equal := false }
  let st1 ← st0.set_hourly_heating
    (match heating_load with
     | none => zeros8760
     | some h => np_array h)
  let st2 ← st1.set_hourly_cooling
    (match cooling_load with
     | none => zeros8760
     | some c => np_array c)
  pure { st2 with dhw := dhw }

/-- The non-fatal warning text emitted by `__add__` when the two simulation
periods differ (lines 370-375, abbreviated). -/
def sim_period_warning : String :=
  "The simulation period for both load classes are different. The maximum simulation period will be taken."

/-- Translation of the `isinstance(other, HourlyGeothermalLoad)` branch of
`__add__` (lines 368-381): warn (non-fatally) if the simulation periods
differ, then construct a new `HourlyGeothermalLoad` from the sums of the raw
stored loads, the maximum of the simulation periods and the sum of the dhw
values.  The emitted warnings are returned alongside the result. -/
def hga_add (self other : HourlyGeothermalLoad) :
    List String × Except PyErr HourlyGeothermalLoad :=
  let warns := if self.simulation_period ≠ other.simulation_period then [sim_period_warning] else []
  (warns, do
    let h ← py_add self._hourly_heating_load other._hourly_heating_load
    let c ← py_add self._hourly_cooling_load other._hourly_cooling_load
    init (some h) (some c) (max self.simulation_period other.simulation_period)
      (self.dhw + other.dhw))

/-- A value returned by a Python `__add__` call: an `HourlyGeothermalLoad`,
or some other (non-load) Python object — Python does not constrain what
`other.__add__(self)` returns, and line 384 returns whatever it is unchanged. -/
inductive PyRet where
  | load (l : HourlyGeothermalLoad)
  | nonLoad (o : PyObj)
deriving DecidableEq, Repr

/-- Outcome of evaluating a Python call: a returned value or a raised
exception. -/
inductive PyOutcome where
  | value (v : PyRet)
  | raises (e : PyErr)
deriving DecidableEq, Repr

/-- The right operand of `a + other`: an `HourlyGeothermalLoad` (handled by
the `isinstance` branch of line 369); or an object that has an `__add__`
method, `radd` giving the outcome of the call `other.__add__(self)` — which
may return a load, return any non-load value, or raise an exception of any
kind; or an object with no `__add__` attribute at all (e.g. `None`, a `dict`,
a bare `object()`), for which the attribute access `other.__add__` itself
raises an `AttributeError`. -/
inductive Operand where
  | hourly (other : HourlyGeothermalLoad)
  | withAdd (radd : HourlyGeothermalLoad → PyOutcome)
  | noAdd

/-- Translation of `__add__` (lines 368-386).  In the fallback branch the
source runs `try: return other.__add__(self)` with `except TypeError` as the
only handler (line 385), which re-raises the `TypeError` of line 386 — same
exception kind, new message.  Hence: a value returned by `other.__add__(self)`
is returned unchanged, whether it is a load or not; a raised `TypeError`
surfaces as a `TypeError`; and any other exception propagates uncaught — in
particular the `AttributeError` of the attribute access when the operand has
no `__add__`, which the `except TypeError` handler does not catch. -/
def __add__ (self : HourlyGeothermalLoad) : Operand → List String × PyOutcome
  | .hourly other =>
    ((hga_add self other).1,
      match (hga_add self other).2 with
      | .ok l => .value (.load l)
      | .error e => .raises e)
  | .withAdd radd =>
    ([], match radd self with
        | .value v => .value v
        | .raises .typeError => .raises .typeError
        | .raises e => .raises e)
  | .noAdd => ([], .raises .attributeError)

/-- Translation of the homogeneous branch of `__add__` with the two operand
states threaded explicitly: the method body only reads `self` and `other`
(field reads, a warning, and a constructor call on the read values), assigning
to neither, so both post-call operand states are the pre-call ones and are
returned alongside the result. -/
def add_frame (self other : HourlyGeothermalLoad) :
    (List String × Except PyErr HourlyGeothermalLoad) ×
      HourlyGeothermalLoad × HourlyGeothermalLoad :=
  (hga_add self other, self, other)

/-- Value of `np.max` on a nonempty numeric chunk.  (On an empty chunk `np.max`
raises; that case is unreachable for a calendar whose months all have at least
one hour, and the claims about `resample_to_monthly` do not depend on it.) -/
def np_max : List ℚ → ℚ
  | [] => 0
  | x :: l => l.foldl max x

/-- The chunking performed by
`np.array_split(hourly_load, np.cumsum(self.UPM)[:-1])` (line 224): splitting
at the cumulative boundaries `UPM[0], UPM[0]+UPM[1], ...` — the last cumulative
sum, the total, being dropped by `[:-1]` — yields consecutive chunks of sizes
`UPM[0], ..., UPM[10]` followed by one chunk holding the remainder of the
array.  `split_sizes xs sizes` takes successive chunks of the given sizes and
one final chunk with whatever remains. -/
def split_sizes (xs : List ℚ) : List ℕ → List (List ℚ)
  | [] => [xs]
  | n :: rest => xs.take n :: split_sizes (xs.drop n) rest

/-- Translation of `resample_to_monthly` (lines 211-229): split the hourly
series at the cumulative `UPM` boundaries, and return the per-chunk maxima
(peaks, kW) and the per-chunk sums (baseloads, kWh/month).  The source computes
these vectorised (`np.max(data, axis=1)`, `np.sum(data, axis=1)`) when
`self.all_months_equal` and with a per-chunk loop otherwise; both branches
yield the per-chunk maximum and sum, so the value does not depend on the
mode flag. -/
def resample_to_monthly (self : HourlyGeothermalLoad) (hourly_load : List ℚ) :
    List ℚ × List ℚ :=
  let data := split_sizes hourly_load self.UPM.dropLast
  (data.map np_max, data.map (fun i => i.sum))

/-- Translation of the `baseload_cooling` property (lines 231-241):
`self.resample_to_monthly(self.hourly_cooling_load)[1]`. -/
def baseload_cooling (self : HourlyGeothermalLoad) : Except PyErr (List ℚ) := do
  let c ← self.hourly_cooling_load
  let xs ← c.toSeries
  pure (self.resample_to_monthly xs).2

/-- Translation of the `baseload_heating` property (lines 243-253):
`self.resample_to_monthly(self.hourly_heating_load)[1]`. -/
def baseload_heating (self : HourlyGeothermalLoad) : Except PyErr (List ℚ) := do
  let h ← self.hourly_heating_load
  let xs ← h.toSeries
  pure (self.resample_to_monthly xs).2

/-- Translation of the `imbalance` property (lines 199-209):
`np.sum(self.hourly_cooling_load - self.hourly_heating_load)` — both getters
(rotated, DHW included), subtracted elementwise, then summed. -/
def imbalance (self : HourlyGeothermalLoad) : Except PyErr ℚ := do
  let c ← self.hourly_cooling_load
  let h ← self.hourly_heating_load
  let d ← py_sub c h
  let ds ← d.toSeries
  pure ds.sum

end HourlyGeothermalLoad

/-- A valid load series in the sense of the data model: exactly 8760 entries,
all non-negative. -/
def ValidSeries (xs : List ℚ) : Prop := xs.length = 8760 ∧ ∀ x ∈ xs, 0 ≤ x

/-- An `HourlyGeothermalLoad` state holding the numeric series `H` and `C` as
raw stored `ndarray`s (the canonical storage produced by the constructor),
with the given simulation period, dhw and base-class configuration. -/
def mkLoad (H C : List ℚ) (sp : ℕ) (d : ℚ) (m : ℕ) (upm : List ℕ) (ame : Bool) :
    HourlyGeothermalLoad :=
  { _hourly_heating_load := .ndarray (numList H)
    _hourly_cooling_load := .ndarray (numList C)
    simulation_period := sp
    dhw := d
    start_month := m
    UPM := upm
    all_months_equal := ame }

/-! ### Basic lemmas about the embedding -/

theorem numList_any_isStr (S : List ℚ) : (numList S).any PyVal.isStr = false := by
  simp [numList, List.any_map, Function.comp, PyVal.isStr]

theorem numList_map_toRat (S : List ℚ) : (numList S).map PyVal.toRat = S := by
  induction S with
  | nil => rfl
  | cons x t ih => simpa [numList, PyVal.toRat] using ih

theorem numList_length (S : List ℚ) : (numList S).length = S.length := by
  simp [numList]

theorem le_foldl_min_iff (c x : ℚ) (l : List ℚ) :
    c ≤ l.foldl min x ↔ c ≤ x ∧ ∀ y ∈ l, c ≤ y := by
  induction l generalizing x with
  | nil => simp
  | cons y t ih =>
    simp only [List.foldl_cons, ih, le_min_iff, List.mem_cons]
    constructor
    · rintro ⟨⟨h1, h2⟩, h3⟩
      exact ⟨h1, fun z hz => hz.elim (fun e => e ▸ h2) (h3 z)⟩
    · rintro ⟨h1, h2⟩
      exact ⟨⟨h1, h2 y (Or.inl rfl)⟩, fun z hz => h2 z (Or.inr hz)⟩

theorem np_min_nonneg_iff (x : ℚ) (l : List ℚ) :
    0 ≤ np_min (x :: l) ↔ ∀ y ∈ x :: l, 0 ≤ y := by
  simp [np_min, le_foldl_min_iff, List.forall_mem_cons]

theorem check_input_numList_ndarray (S : List ℚ) (hlen : S.length = 8760)
    (hpos : ∀ x ∈ S, 0 ≤ x) :
    _check_input (.ndarray (numList S)) = .ok true := by
  obtain ⟨x, l, rfl⟩ : ∃ x l, S = x :: l := by
    cases S with
    | nil => simp at hlen
    | cons x l => exact ⟨x, l, rfl⟩
  have hmin : ¬ np_min (x :: l) < 0 := not_lt.2 ((np_min_nonneg_iff x l).2 hpos)
  simp [_check_input, PyObj.elems, numList_length, hlen, numList_any_isStr,
    numList_map_toRat, hmin]

theorem zipWith_add_nonneg (A B : List ℚ) (hA : ∀ x ∈ A, 0 ≤ x) (hB : ∀ x ∈ B, 0 ≤ x) :
    ∀ x ∈ List.zipWith (· + ·) A B, 0 ≤ x := by
  induction A generalizing B with
  | nil => intro x hx; simp at hx
  | cons a t ih =>
    cases B with
    | nil => intro x hx; simp at hx
    | cons b s =>
      intro x hx
      simp only [List.zipWith_cons_cons, List.mem_cons] at hx
      rcases hx with rfl | hx
      · exact add_nonneg (hA a (by simp)) (hB b (by simp))
      · exact ih s (fun y hy => hA y (List.mem_cons_of_mem a hy))
          (fun y hy => hB y (List.mem_cons_of_mem b hy)) x hx

theorem ValidSeries_zipWith_add (A B : List ℚ) (hA : ValidSeries A) (hB : ValidSeries B) :
    ValidSeries (List.zipWith (· + ·) A B) := by
  obtain ⟨hAl, hApos⟩ := hA
  obtain ⟨hBl, hBpos⟩ := hB
  exact ⟨by simp [List.length_zipWith, hAl, hBl], zipWith_add_nonneg A B hApos hBpos⟩

theorem zipWith_num_add (A B : List ℚ) :
    List.zipWith (fun u v => PyVal.num (u.toRat + v.toRat)) (numList A) (numList B) =
      numList (List.zipWith (· + ·) A B) := by
  induction A generalizing B with
  | nil => cases B <;> rfl
  | cons x t ih =>
    cases B with
    | nil => rfl
    | cons y s => simpa [numList, PyVal.toRat] using ih s

theorem py_add_numArrays (A B : List ℚ) (h : A.length = B.length) :
    py_add (.ndarray (numList A)) (.ndarray (numList B)) =
      .ok (.ndarray (numList (List.zipWith (· + ·) A B))) := by
  simp [py_add, numList_any_isStr, numList_length, h, zipWith_num_add]

theorem map_num_add_scalar (A : List ℚ) (c : ℚ) :
    (numList A).map (fun v => PyVal.num (v.toRat + c)) = numList (A.map (· + c)) := by
  induction A with
  | nil => rfl
  | cons x t ih => simp [numList, PyVal.toRat]

theorem py_add_num_scalar (A : List ℚ) (c : ℚ) :
    py_add (.ndarray (numList A)) (.scalar c) =
      .ok (.ndarray (numList (A.map (· + c)))) := by
  simp [py_add, numList_any_isStr, map_num_add_scalar]

theorem zipWith_num_sub (A B : List ℚ) :
    List.zipWith (fun u v => PyVal.num (u.toRat - v.toRat)) (numList A) (numList B) =
      numList (List.zipWith (· - ·) A B) := by
  induction A generalizing B with
  | nil => cases B <;> rfl
  | cons x t ih =>
    cases B with
    | nil => rfl
    | cons y s => simpa [numList, PyVal.toRat] using ih s

theorem py_sub_numArrays (A B : List ℚ) (h : A.length = B.length) :
    py_sub (.ndarray (numList A)) (.ndarray (numList B)) =
      .ok (.ndarray (numList (List.zipWith (· - ·) A B))) := by
  simp [py_sub, numList_any_isStr, numList_length, h, zipWith_num_sub]

theorem toSeries_numList (S : List ℚ) : (PyObj.ndarray (numList S)).toSeries = .ok S := by
  simp [PyObj.toSeries, numList_any_isStr, numList_map_toRat]

theorem correct_numArray (self : HourlyGeothermalLoad) (A : List ℚ) :
    self.correct_for_start_month (.ndarray (numList A)) =
      .ok (.ndarray (numList (A.drop self._start_hour ++ A.take self._start_hour))) := by
  unfold HourlyGeothermalLoad.correct_for_start_month
  by_cases h1 : self.start_month = 1
  · have hs : self._start_hour = 0 := by
      simp [HourlyGeothermalLoad._start_hour, h1]
    simp [h1, hs]
  · simp [h1, PyObj.elems, numList, List.map_take, List.map_drop]

theorem set_hourly_heating_valid (self : HourlyGeothermalLoad) (S : List ℚ)
    (hS : ValidSeries S) :
    self.set_hourly_heating (.ndarray (numList S)) =
      .ok { self with _hourly_heating_load := .ndarray (numList S) } := by
  unfold HourlyGeothermalLoad.set_hourly_heating
  rw [check_input_numList_ndarray S hS.1 hS.2]

theorem set_hourly_cooling_valid (self : HourlyGeothermalLoad) (S : List ℚ)
    (hS : ValidSeries S) :
    self.set_hourly_cooling (.ndarray (numList S)) =
      .ok { self with _hourly_cooling_load := .ndarray (numList S) } := by
  unfold HourlyGeothermalLoad.set_hourly_cooling
  rw [check_input_numList_ndarray S hS.1 hS.2]

theorem init_numArrays (H C : List ℚ) (sp : ℕ) (d : ℚ)
    (hH : ValidSeries H) (hC : ValidSeries C) :
    HourlyGeothermalLoad.init (some (.ndarray (numList H))) (some (.ndarray (numList C))) sp d =
      .ok (mkLoad H C sp d 1 HourlyGeothermalLoad.UPM_default false) := by
  unfold HourlyGeothermalLoad.init
  show (HourlyGeothermalLoad.set_hourly_heating _ (HourlyGeothermalLoad.np_array
    (.ndarray (numList H)))).bind _ = _
  rw [show HourlyGeothermalLoad.np_array (.ndarray (numList H)) = .ndarray (numList H) from rfl,
    set_hourly_heating_valid _ H hH]
  show (HourlyGeothermalLoad.set_hourly_cooling _ (HourlyGeothermalLoad.np_array
    (.ndarray (numList C)))).bind _ = _
  rw [show HourlyGeothermalLoad.np_array (.ndarray (numList C)) = .ndarray (numList C) from rfl,
    set_hourly_cooling_valid _ C hC]
  rfl

theorem start_hour_mkLoad (H C : List ℚ) (sp : ℕ) (d : ℚ) (m : ℕ) (upm : List ℕ) (ame : Bool) :
    (mkLoad H C sp d m upm ame)._start_hour = (upm.take (m - 1)).sum := rfl

theorem heating_getter_mkLoad (H C : List ℚ) (sp : ℕ) (d : ℚ) (m : ℕ) (upm : List ℕ)
    (ame : Bool) :
    (mkLoad H C sp d m upm ame).hourly_heating_load =
      .ok (.ndarray (numList ((H.map (· + d / 8760)).drop ((upm.take (m - 1)).sum) ++
        (H.map (· + d / 8760)).take ((upm.take (m - 1)).sum)))) := by
  unfold HourlyGeothermalLoad.hourly_heating_load
  show (py_add (.ndarray (numList H)) (.scalar (d / 8760))).bind _ = _
  rw [py_add_num_scalar]
  show (mkLoad H C sp d m upm ame).correct_for_start_month
    (.ndarray (numList (H.map (· + d / 8760)))) = _
  rw [correct_numArray, start_hour_mkLoad]

theorem cooling_getter_mkLoad (H C : List ℚ) (sp : ℕ) (d : ℚ) (m : ℕ) (upm : List ℕ)
    (ame : Bool) :
    (mkLoad H C sp d m upm ame).hourly_cooling_load =
      .ok (.ndarray (numList (C.drop ((upm.take (m - 1)).sum) ++
        C.take ((upm.take (m - 1)).sum)))) := by
  unfold HourlyGeothermalLoad.hourly_cooling_load
  show (mkLoad H C sp d m upm ame).correct_for_start_month (.ndarray (numList C)) = _
  rw [correct_numArray, start_hour_mkLoad]

theorem split_sizes_flatten (szs : List ℕ) (xs : List ℚ) :
    (HourlyGeothermalLoad.split_sizes xs szs).flatten = xs := by
  induction szs generalizing xs with
  | nil => simp [HourlyGeothermalLoad.split_sizes]
  | cons n rest ih =>
    simp [HourlyGeothermalLoad.split_sizes, ih, List.take_append_drop]

theorem split_sizes_sum_eq (szs : List ℕ) (xs : List ℚ) :
    ((HourlyGeothermalLoad.split_sizes xs szs).map (fun i => i.sum)).sum = xs.sum := by
  rw [← List.sum_flatten, split_sizes_flatten]

theorem split_sizes_length (szs : List ℕ) (xs : List ℚ) :
    (HourlyGeothermalLoad.split_sizes xs szs).length = szs.length + 1 := by
  induction szs generalizing xs <;> simp [HourlyGeothermalLoad.split_sizes, *]

theorem split_sizes_map_length (szs : List ℕ) (xs : List ℚ) (h : szs.sum ≤ xs.length) :
    (HourlyGeothermalLoad.split_sizes xs szs).map List.length =
      szs ++ [xs.length - szs.sum] := by
  induction szs generalizing xs with
  | nil => simp [HourlyGeothermalLoad.split_sizes]
  | cons n rest ih =>
    have hsum : n + rest.sum ≤ xs.length := by simpa [List.sum_cons] using h
    have hn : n ≤ xs.length := by omega
    have hrest : rest.sum ≤ (xs.drop n).length := by
      simp only [List.length_drop]; omega
    simp only [HourlyGeothermalLoad.split_sizes, List.map_cons, List.length_take,
      ih (xs.drop n) hrest, List.length_drop, List.sum_cons]
    have h1 : min n xs.length = n := min_eq_left hn
    have h2 : xs.length - n - rest.sum = xs.length - (n + rest.sum) := by omega
    rw [h1, h2]
    simp

theorem sum_map_add_const (A : List ℚ) (c : ℚ) :
    (A.map (· + c)).sum = A.sum + A.length * c := by
  induction A with
  | nil => simp
  | cons x t ih => simp [ih]; ring

theorem sum_rot (A : List ℚ) (s : ℕ) : (A.drop s ++ A.take s).sum = A.sum := by
  rw [List.sum_append, add_comm, ← List.sum_append, List.take_append_drop]

theorem length_rot (A : List ℚ) (s : ℕ) : (A.drop s ++ A.take s).length = A.length := by
  rw [List.length_append, add_comm, ← List.length_append, List.take_append_drop]

theorem sum_zipWith_sub (A B : List ℚ) (h : A.length = B.length) :
    (List.zipWith (· - ·) A B).sum = A.sum - B.sum := by
  induction A generalizing B with
  | nil =>
    cases B with
    | nil => simp
    | cons _ _ => simp at h
  | cons x t ih =>
    cases B with
    | nil => simp at h
    | cons y s =>
      have := ih s (by simpa using h)
      simp [this]
      ring

theorem check_input_numList_pylist (S : List ℚ) (hlen : S.length = 8760)
    (hpos : ∀ x ∈ S, 0 ≤ x) :
    _check_input (.pylist (numList S)) = .ok true := by
  obtain ⟨x, l, rfl⟩ : ∃ x l, S = x :: l := by
    cases S with
    | nil => simp at hlen
    | cons x l => exact ⟨x, l, rfl⟩
  have hmin : ¬ np_min (x :: l) < 0 := not_lt.2 ((np_min_nonneg_iff x l).2 hpos)
  simp [_check_input, PyObj.elems, numList_length, hlen, numList_any_isStr,
    numList_map_toRat, hmin]

theorem check_input_ndarray_wrong_length (xs : List PyVal) (h : xs.length ≠ 8760) :
    _check_input (.ndarray xs) = .ok false := by
  simp [_check_input, PyObj.elems, h]

theorem check_input_numList_ndarray_neg (S : List ℚ) (hlen : S.length = 8760)
    (hneg : ∃ x ∈ S, x < 0) :
    _check_input (.ndarray (numList S)) = .ok false := by
  obtain ⟨x, l, rfl⟩ : ∃ x l, S = x :: l := by
    cases S with
    | nil => simp at hlen
    | cons x l => exact ⟨x, l, rfl⟩
  have hmin : np_min (x :: l) < 0 := by
    by_contra hc
    rw [not_lt] at hc
    obtain ⟨y, hy, hylt⟩ := hneg
    exact absurd ((np_min_nonneg_iff x l).1 hc y hy) (not_le.2 hylt)
  simp [_check_input, PyObj.elems, numList_length, hlen, numList_any_isStr,
    numList_map_toRat, hmin]

theorem set_heating_invalid (self : HourlyGeothermalLoad) (load : PyObj)
    (h : _check_input load = .ok false) :
    self.set_hourly_heating load = .error .valueError := by
  unfold HourlyGeothermalLoad.set_hourly_heating
  rw [h]

theorem set_cooling_invalid (self : HourlyGeothermalLoad) (load : PyObj)
    (h : _check_input load = .ok false) :
    self.set_hourly_cooling load = .error .valueError := by
  unfold HourlyGeothermalLoad.set_hourly_cooling
  rw [h]

theorem set_hourly_heating_pylist_valid (self : HourlyGeothermalLoad) (S : List ℚ)
    (hS : ValidSeries S) :
    self.set_hourly_heating (.pylist (numList S)) =
      .ok { self with _hourly_heating_load := .pylist (numList S) } := by
  unfold HourlyGeothermalLoad.set_hourly_heating
  rw [check_input_numList_pylist S hS.1 hS.2]

/-- The value of the homogeneous `__add__` branch on two canonically stored
instances (shared by the merge and frame claims). -/
theorem hga_add_mkLoad (Ha Ca Hb Cb : List ℚ) (spa spb : ℕ) (da db : ℚ)
    (ma mb : ℕ) (ua ub : List ℕ) (ea eb : Bool)
    (hHa : ValidSeries Ha) (hCa : ValidSeries Ca)
    (hHb : ValidSeries Hb) (hCb : ValidSeries Cb) :
    HourlyGeothermalLoad.hga_add (mkLoad Ha Ca spa da ma ua ea)
        (mkLoad Hb Cb spb db mb ub eb) =
      (if spa ≠ spb then [HourlyGeothermalLoad.sim_period_warning] else [],
       .ok (mkLoad (List.zipWith (· + ·) Ha Hb) (List.zipWith (· + ·) Ca Cb)
         (max spa spb) (da + db) 1 HourlyGeothermalLoad.UPM_default false)) := by
  have hlH : Ha.length = Hb.length := by rw [hHa.1, hHb.1]
  have hlC : Ca.length = Cb.length := by rw [hCa.1, hCb.1]
  have h2 : (HourlyGeothermalLoad.hga_add (mkLoad Ha Ca spa da ma ua ea)
      (mkLoad Hb Cb spb db mb ub eb)).2 =
      .ok (mkLoad (List.zipWith (· + ·) Ha Hb) (List.zipWith (· + ·) Ca Cb)
        (max spa spb) (da + db) 1 HourlyGeothermalLoad.UPM_default false) := by
    show (py_add (.ndarray (numList Ha)) (.ndarray (numList Hb))).bind _ = _
    rw [py_add_numArrays Ha Hb hlH]
    show (py_add (.ndarray (numList Ca)) (.ndarray (numList Cb))).bind _ = _
    rw [py_add_numArrays Ca Cb hlC]
    show HourlyGeothermalLoad.init
      (some (.ndarray (numList (List.zipWith (· + ·) Ha Hb))))
      (some (.ndarray (numList (List.zipWith (· + ·) Ca Cb))))
      (max spa spb) (da + db) = _
    rw [init_numArrays _ _ _ _ (ValidSeries_zipWith_add Ha Hb hHa hHb)
      (ValidSeries_zipWith_add Ca Cb hCa hCb)]
  have h1 : (HourlyGeothermalLoad.hga_add (mkLoad Ha Ca spa da ma ua ea)
      (mkLoad Hb Cb spb db mb ub eb)).1 =
      if spa ≠ spb then [HourlyGeothermalLoad.sim_period_warning] else [] := rfl
  calc HourlyGeothermalLoad.hga_add (mkLoad Ha Ca spa da ma ua ea)
        (mkLoad Hb Cb spb db mb ub eb)
      = ((HourlyGeothermalLoad.hga_add (mkLoad Ha Ca spa da ma ua ea)
          (mkLoad Hb Cb spb db mb ub eb)).1,
         (HourlyGeothermalLoad.hga_add (mkLoad Ha Ca spa da ma ua ea)
          (mkLoad Hb Cb spb db mb ub eb)).2) := rfl
    _ = _ := by rw [h1, h2]

/-- The all-zero hourly series. -/
def Z8760 : List ℚ := List.replicate 8760 0

theorem ValidSeries_zeros : ValidSeries Z8760 := by
  constructor
  · show (List.replicate 8760 (0:ℚ)).length = 8760
    rw [List.length_replicate]
  · intro x hx
    have hx2 : x ∈ List.replicate 8760 (0:ℚ) := hx
    rw [List.eq_of_mem_replicate hx2]

/-! ### Claim theorems -/

/-- C1: for every two `HourlyGeothermalLoad` instances (their raw loads stored
canonically, i.e. as the numeric arrays the constructor produces), `a + b`
returns a new `HourlyGeothermalLoad` whose stored heating array is the
elementwise sum of the two raw (unrotated, pre-DHW) heating arrays, whose
stored cooling array is the elementwise sum of the two raw cooling arrays,
whose `simulation_period` is the maximum of the two operands' simulation
periods — a non-fatal warning being emitted exactly when they differ — and
whose `dhw` equals the sum of the two operands' dhw values. -/
theorem C1_add_merges (Ha Ca Hb Cb : List ℚ) (spa spb : ℕ) (da db : ℚ)
    (ma mb : ℕ) (ua ub : List ℕ) (ea eb : Bool)
    (hHa : ValidSeries Ha) (hCa : ValidSeries Ca)
    (hHb : ValidSeries Hb) (hCb : ValidSeries Cb) :
    ((HourlyGeothermalLoad.hga_add (mkLoad Ha Ca spa da ma ua ea)
        (mkLoad Hb Cb spb db mb ub eb)).2 =
      .ok (mkLoad (List.zipWith (· + ·) Ha Hb) (List.zipWith (· + ·) Ca Cb)
        (max spa spb) (da + db) 1 HourlyGeothermalLoad.UPM_default false)) ∧
    ((HourlyGeothermalLoad.hga_add (mkLoad Ha Ca spa da ma ua ea)
        (mkLoad Hb Cb spb db mb ub eb)).1 =
      if spa ≠ spb then [HourlyGeothermalLoad.sim_period_warning] else []) := by
  rw [hga_add_mkLoad Ha Ca Hb Cb spa spb da db ma mb ua ub ea eb hHa hCa hHb hCb]
  exact ⟨rfl, rfl⟩

theorem C1_witness :
    ((HourlyGeothermalLoad.hga_add (mkLoad Z8760 Z8760 20 0 1
        HourlyGeothermalLoad.UPM_default false)
      (mkLoad Z8760 Z8760 25 100 1 HourlyGeothermalLoad.UPM_default false)).2 =
      .ok (mkLoad (List.zipWith (· + ·) Z8760 Z8760) (List.zipWith (· + ·) Z8760 Z8760)
        (max 20 25) (0 + 100) 1 HourlyGeothermalLoad.UPM_default false)) ∧
    ((HourlyGeothermalLoad.hga_add (mkLoad Z8760 Z8760 20 0 1
        HourlyGeothermalLoad.UPM_default false)
      (mkLoad Z8760 Z8760 25 100 1 HourlyGeothermalLoad.UPM_default false)).1 =
      if (20:ℕ) ≠ 25 then [HourlyGeothermalLoad.sim_period_warning] else []) :=
  C1_add_merges Z8760 Z8760 Z8760 Z8760 20 25 0 100 1 1
    HourlyGeothermalLoad.UPM_default HourlyGeothermalLoad.UPM_default false false
    ValidSeries_zeros ValidSeries_zeros ValidSeries_zeros ValidSeries_zeros

/-- C2: a candidate load that fails validation — a scalar instead of a
sequence, an array whose length is not 8760, or an array containing a negative
value — makes `set_hourly_heating` and `set_hourly_cooling` (identical to the
property-style assignments, which they delegate to) raise `ValueError` (the
spec's `InvalidLoadInput` kind); in this explicit-state translation an error
produces no successor state, so the previously stored array is left unchanged
and there is no partial mutation.  A valid candidate replaces the raw stored
array and changes no other field. -/
theorem C2_setters_validate (self : HourlyGeothermalLoad) (q : ℚ) (A B V : List ℚ)
    (hA : A.length ≠ 8760) (hBlen : B.length = 8760) (hBneg : ∃ x ∈ B, x < 0)
    (hV : ValidSeries V) :
    (self.set_hourly_heating (.scalar q) = .error .valueError) ∧
    (self.set_hourly_cooling (.scalar q) = .error .valueError) ∧
    (self.set_hourly_heating (.ndarray (numList A)) = .error .valueError) ∧
    (self.set_hourly_cooling (.ndarray (numList A)) = .error .valueError) ∧
    (self.set_hourly_heating (.ndarray (numList B)) = .error .valueError) ∧
    (self.set_hourly_cooling (.ndarray (numList B)) = .error .valueError) ∧
    (self.set_hourly_heating (.ndarray (numList V)) =
      .ok { self with _hourly_heating_load := .ndarray (numList V) }) ∧
    (self.set_hourly_cooling (.ndarray (numList V)) =
      .ok { self with _hourly_cooling_load := .ndarray (numList V) }) := by
  have hAlen : (numList A).length ≠ 8760 := by rw [numList_length]; exact hA
  exact ⟨set_heating_invalid self _ rfl, set_cooling_invalid self _ rfl,
    set_heating_invalid self _ (check_input_ndarray_wrong_length _ hAlen),
    set_cooling_invalid self _ (check_input_ndarray_wrong_length _ hAlen),
    set_heating_invalid self _ (check_input_numList_ndarray_neg B hBlen hBneg),
    set_cooling_invalid self _ (check_input_numList_ndarray_neg B hBlen hBneg),
    set_hourly_heating_valid self V hV, set_hourly_cooling_valid self V hV⟩

theorem C2_witness :
    ((List.replicate 8759 (0:ℚ)).length ≠ 8760) ∧
    ((List.replicate 8759 (0:ℚ) ++ [-1]).length = 8760) ∧
    (∃ x ∈ List.replicate 8759 (0:ℚ) ++ [-1], x < 0) ∧
    ((mkLoad Z8760 Z8760 20 0 1 HourlyGeothermalLoad.UPM_default false).set_hourly_heating
        (.scalar 5) = .error .valueError) ∧
    ((mkLoad Z8760 Z8760 20 0 1 HourlyGeothermalLoad.UPM_default false).set_hourly_heating
        (.ndarray (numList (List.replicate 8759 (0:ℚ)))) = .error .valueError) ∧
    ((mkLoad Z8760 Z8760 20 0 1 HourlyGeothermalLoad.UPM_default false).set_hourly_heating
        (.ndarray (numList (List.replicate 8759 (0:ℚ) ++ [-1]))) = .error .valueError) ∧
    ((mkLoad Z8760 Z8760 20 0 1 HourlyGeothermalLoad.UPM_default false).set_hourly_heating
        (.ndarray (numList Z8760)) =
      .ok { mkLoad Z8760 Z8760 20 0 1 HourlyGeothermalLoad.UPM_default false with
        _hourly_heating_load := .ndarray (numList Z8760) }) := by
  have h1 : (List.replicate 8759 (0:ℚ)).length ≠ 8760 := by
    rw [List.length_replicate]; omega
  have h2 : (List.replicate 8759 (0:ℚ) ++ [-1]).length = 8760 := by
    rw [List.length_append, List.length_replicate]; rfl
  have h3 : ∃ x ∈ List.replicate 8759 (0:ℚ) ++ [-1], x < 0 := by
    refine ⟨-1, List.mem_append_right _ (List.mem_singleton.2 rfl), by norm_num⟩
  have h := C2_setters_validate
    (mkLoad Z8760 Z8760 20 0 1 HourlyGeothermalLoad.UPM_default false) 5
    (List.replicate 8759 (0:ℚ)) (List.replicate 8759 (0:ℚ) ++ [-1]) Z8760
    h1 h2 h3 ValidSeries_zeros
  exact ⟨h1, h2, h3, h.1, h.2.2.1, h.2.2.2.2.1, h.2.2.2.2.2.2.1⟩

/-- C9 (frame): evaluating `a + b` leaves both operands completely unchanged —
the method body only reads the operands, so in the explicit-state translation
both post-call operand states equal the pre-call states — and the value
returned is a newly constructed third instance, built by the constructor from
the read values (with its own fresh arrays and default base configuration)
rather than by mutating either operand. -/
theorem C9_add_frame (Ha Ca Hb Cb : List ℚ) (spa spb : ℕ) (da db : ℚ)
    (ma mb : ℕ) (ua ub : List ℕ) (ea eb : Bool)
    (hHa : ValidSeries Ha) (hCa : ValidSeries Ca)
    (hHb : ValidSeries Hb) (hCb : ValidSeries Cb) :
    ((HourlyGeothermalLoad.add_frame (mkLoad Ha Ca spa da ma ua ea)
        (mkLoad Hb Cb spb db mb ub eb)).2.1 = mkLoad Ha Ca spa da ma ua ea) ∧
    ((HourlyGeothermalLoad.add_frame (mkLoad Ha Ca spa da ma ua ea)
        (mkLoad Hb Cb spb db mb ub eb)).2.2 = mkLoad Hb Cb spb db mb ub eb) ∧
    ((HourlyGeothermalLoad.add_frame (mkLoad Ha Ca spa da ma ua ea)
        (mkLoad Hb Cb spb db mb ub eb)).1 =
      HourlyGeothermalLoad.hga_add (mkLoad Ha Ca spa da ma ua ea)
        (mkLoad Hb Cb spb db mb ub eb)) ∧
    ((HourlyGeothermalLoad.add_frame (mkLoad Ha Ca spa da ma ua ea)
        (mkLoad Hb Cb spb db mb ub eb)).1.2 =
      .ok (mkLoad (List.zipWith (· + ·) Ha Hb) (List.zipWith (· + ·) Ca Cb)
        (max spa spb) (da + db) 1 HourlyGeothermalLoad.UPM_default false)) := by
  refine ⟨rfl, rfl, rfl, ?_⟩
  show (HourlyGeothermalLoad.hga_add (mkLoad Ha Ca spa da ma ua ea)
    (mkLoad Hb Cb spb db mb ub eb)).2 = _
  rw [hga_add_mkLoad Ha Ca Hb Cb spa spb da db ma mb ua ub ea eb hHa hCa hHb hCb]

theorem C9_witness :
    ((HourlyGeothermalLoad.add_frame (mkLoad Z8760 Z8760 20 0 1
        HourlyGeothermalLoad.UPM_default false)
      (mkLoad Z8760 Z8760 25 100 1 HourlyGeothermalLoad.UPM_default false)).2.1 =
      mkLoad Z8760 Z8760 20 0 1 HourlyGeothermalLoad.UPM_default false) ∧
    ((HourlyGeothermalLoad.add_frame (mkLoad Z8760 Z8760 20 0 1
        HourlyGeothermalLoad.UPM_default false)
      (mkLoad Z8760 Z8760 25 100 1 HourlyGeothermalLoad.UPM_default false)).2.2 =
      mkLoad Z8760 Z8760 25 100 1 HourlyGeothermalLoad.UPM_default false) ∧
    ((HourlyGeothermalLoad.add_frame (mkLoad Z8760 Z8760 20 0 1
        HourlyGeothermalLoad.UPM_default false)
      (mkLoad Z8760 Z8760 25 100 1 HourlyGeothermalLoad.UPM_default false)).1 =
      HourlyGeothermalLoad.hga_add (mkLoad Z8760 Z8760 20 0 1
        HourlyGeothermalLoad.UPM_default false)
        (mkLoad Z8760 Z8760 25 100 1 HourlyGeothermalLoad.UPM_default false)) ∧
    ((HourlyGeothermalLoad.add_frame (mkLoad Z8760 Z8760 20 0 1
        HourlyGeothermalLoad.UPM_default false)
      (mkLoad Z8760 Z8760 25 100 1 HourlyGeothermalLoad.UPM_default false)).1.2 =
      .ok (mkLoad (List.zipWith (· + ·) Z8760 Z8760) (List.zipWith (· + ·) Z8760 Z8760)
        (max 20 25) (0 + 100) 1 HourlyGeothermalLoad.UPM_default false)) :=
  C9_add_frame Z8760 Z8760 Z8760 Z8760 20 25 0 100 1 1
    HourlyGeothermalLoad.UPM_default HourlyGeothermalLoad.UPM_default false false
    ValidSeries_zeros ValidSeries_zeros ValidSeries_zeros ValidSeries_zeros

/-- C10 (implicit): the setters store the exact object that was passed, with
no conversion to a canonical numeric array and no copy; consequently a plain
Python list of 8760 non-negative numbers is accepted by `_check_input`, is
stored by `set_hourly_heating` as the list itself, and the subsequent read of
`hourly_heating_load` raises a `TypeError` — the stored list cannot be added
elementwise to the scalar `dhw / 8760` — instead of returning the load series,
so the getter's non-error behaviour is not guaranteed for all inputs that pass
validation. -/
theorem C10_list_storage_breaks_getter (self : HourlyGeothermalLoad) (L : List ℚ)
    (hL : ValidSeries L) :
    (_check_input (.pylist (numList L)) = .ok true) ∧
    (self.set_hourly_heating (.pylist (numList L)) =
      .ok { self with _hourly_heating_load := .pylist (numList L) }) ∧
    (HourlyGeothermalLoad.hourly_heating_load
        { self with _hourly_heating_load := .pylist (numList L) } = .error .typeError) := by
  refine ⟨check_input_numList_pylist L hL.1 hL.2,
    set_hourly_heating_pylist_valid self L hL, ?_⟩
  rfl

theorem C10_witness :
    (_check_input (.pylist (numList Z8760)) = .ok true) ∧
    ((mkLoad Z8760 Z8760 20 0 1 HourlyGeothermalLoad.UPM_default false).set_hourly_heating
        (.pylist (numList Z8760)) =
      .ok { mkLoad Z8760 Z8760 20 0 1 HourlyGeothermalLoad.UPM_default false with
        _hourly_heating_load := .pylist (numList Z8760) }) ∧
    (HourlyGeothermalLoad.hourly_heating_load
        { mkLoad Z8760 Z8760 20 0 1 HourlyGeothermalLoad.UPM_default false with
          _hourly_heating_load := .pylist (numList Z8760) } = .error .typeError) :=
  C10_list_storage_breaks_getter
    (mkLoad Z8760 Z8760 20 0 1 HourlyGeothermalLoad.UPM_default false) Z8760
    ValidSeries_zeros

/-- C8 counterexample: the claim asserts that adding a load to an operand
offering no reciprocal combination raises a type error, and that `a + other`
never returns a non-load result silently.  Both fail on the code: for an
operand with no `__add__` at all, the attribute access `other.__add__` raises
an `AttributeError`, which the `except TypeError` handler of line 385 does not
catch — not a type error; and for an operand whose `__add__` returns a
non-load value (here the number 42), line 384 returns that value unchanged. -/
theorem C8_cex :
    ((mkLoad Z8760 Z8760 20 0 1 HourlyGeothermalLoad.UPM_default false).__add__
        HourlyGeothermalLoad.Operand.noAdd = ([], .raises .attributeError)) ∧
    (PyErr.attributeError ≠ PyErr.typeError) ∧
    ((mkLoad Z8760 Z8760 20 0 1 HourlyGeothermalLoad.UPM_default false).__add__
        (.withAdd (fun _ => .value (.nonLoad (.scalar 42)))) =
      ([], .value (.nonLoad (.scalar 42)))) :=
  ⟨rfl, by decide, rfl⟩

/-- C8 (amended): for an operand that is not an `HourlyGeothermalLoad`,
`a + other` delegates to the operand's reciprocal addition
(`return other.__add__(self)`) when the operand defines one, returning
whatever value that call returns — including a non-load value — unchanged; a
`TypeError` raised by the reciprocal addition is caught and re-raised as the
`IncompatibleOperand` `TypeError` (same kind), while any other exception
propagates uncaught; and an operand with no `__add__` attribute at all makes
the attribute access raise an `AttributeError` (only `TypeError` is caught),
not a type error. -/
theorem C8_dispatch_amended (a : HourlyGeothermalLoad)
    (radd : HourlyGeothermalLoad → HourlyGeothermalLoad.PyOutcome) :
    (∀ v, radd a = .value v → a.__add__ (.withAdd radd) = ([], .value v)) ∧
    (radd a = .raises .typeError →
      a.__add__ (.withAdd radd) = ([], .raises .typeError)) ∧
    (∀ e, radd a = .raises e → a.__add__ (.withAdd radd) = ([], .raises e)) ∧
    (a.__add__ .noAdd = ([], .raises .attributeError)) := by
  refine ⟨?_, ?_, ?_, rfl⟩
  · intro v h
    simp only [HourlyGeothermalLoad.__add__, h]
  · intro h
    simp only [HourlyGeothermalLoad.__add__, h]
  · intro e h
    cases e <;> simp only [HourlyGeothermalLoad.__add__, h]

theorem C8_witness :
    ((fun x : HourlyGeothermalLoad => HourlyGeothermalLoad.PyOutcome.raises PyErr.typeError)
        (mkLoad Z8760 Z8760 20 0 1 HourlyGeothermalLoad.UPM_default false) =
      .raises .typeError) ∧
    ((mkLoad Z8760 Z8760 20 0 1 HourlyGeothermalLoad.UPM_default false).__add__
        (.withAdd (fun x => HourlyGeothermalLoad.PyOutcome.raises PyErr.typeError)) =
      ([], .raises .typeError)) ∧
    ((mkLoad Z8760 Z8760 20 0 1 HourlyGeothermalLoad.UPM_default false).__add__
        HourlyGeothermalLoad.Operand.noAdd = ([], .raises .attributeError)) := by
  have h := C8_dispatch_amended
    (mkLoad Z8760 Z8760 20 0 1 HourlyGeothermalLoad.UPM_default false)
    (fun x => HourlyGeothermalLoad.PyOutcome.raises PyErr.typeError)
  exact ⟨rfl, h.2.1 rfl, h.2.2.2⟩

/-- C3: the `hourly_heating_load` getter returns the raw stored heating series
with `dhw / 8760` added uniformly to every hour and then rotated for the
current start month, and the `hourly_cooling_load` getter returns the raw
cooling series rotated with no DHW contribution; constructing a load from
valid series `H`, `C` (start month 1, dhw 0) and reading the getters back
returns `H` and `C` exactly; and with dhw = 8760 and an all-zero stored
heating array the heating getter returns the all-ones array for every start
month. -/
theorem C3_getter_views (H C : List ℚ) (sp : ℕ) (d : ℚ) (m : ℕ) (upm : List ℕ)
    (ame : Bool) (hH : ValidSeries H) (hC : ValidSeries C) :
    ((mkLoad H C sp d m upm ame).hourly_heating_load =
      .ok (.ndarray (numList ((H.map (· + d / 8760)).drop
        ((mkLoad H C sp d m upm ame)._start_hour) ++
        (H.map (· + d / 8760)).take ((mkLoad H C sp d m upm ame)._start_hour))))) ∧
    ((mkLoad H C sp d m upm ame).hourly_cooling_load =
      .ok (.ndarray (numList (C.drop ((mkLoad H C sp d m upm ame)._start_hour) ++
        C.take ((mkLoad H C sp d m upm ame)._start_hour))))) ∧
    (HourlyGeothermalLoad.init (some (.ndarray (numList H)))
        (some (.ndarray (numList C))) sp 0 =
      .ok (mkLoad H C sp 0 1 HourlyGeothermalLoad.UPM_default false)) ∧
    ((mkLoad H C sp 0 1 HourlyGeothermalLoad.UPM_default false).hourly_heating_load =
      .ok (.ndarray (numList H))) ∧
    ((mkLoad H C sp 0 1 HourlyGeothermalLoad.UPM_default false).hourly_cooling_load =
      .ok (.ndarray (numList C))) ∧
    ((mkLoad Z8760 C sp 8760 m upm ame).hourly_heating_load =
      .ok (.ndarray (numList (List.replicate 8760 1)))) := by
  refine ⟨heating_getter_mkLoad H C sp d m upm ame,
    cooling_getter_mkLoad H C sp d m upm ame,
    init_numArrays H C sp 0 hH hC, ?_, ?_, ?_⟩
  · rw [heating_getter_mkLoad]
    have h0 : H.map (· + (0:ℚ) / 8760) = H := by
      simp
    rw [h0]
    simp
  · rw [cooling_getter_mkLoad]
    simp
  · rw [heating_getter_mkLoad]
    have h1 : Z8760.map (· + (8760:ℚ) / 8760) = List.replicate 8760 1 := by
      show (List.replicate 8760 (0:ℚ)).map (· + (8760:ℚ) / 8760) = _
      rw [List.map_replicate]
      norm_num
    rw [h1]
    have h2 : ∀ s : ℕ, (List.replicate 8760 (1:ℚ)).drop s ++
        (List.replicate 8760 (1:ℚ)).take s = List.replicate 8760 (1:ℚ) := by
      intro s
      rw [List.drop_replicate, List.take_replicate, ← List.replicate_add]
      congr 1
      omega
    rw [h2]

theorem C3_witness :
    ValidSeries Z8760 ∧
    ((mkLoad Z8760 Z8760 20 7 5 HourlyGeothermalLoad.UPM_default false).hourly_heating_load =
      .ok (.ndarray (numList ((Z8760.map (· + (7:ℚ) / 8760)).drop
        ((mkLoad Z8760 Z8760 20 7 5 HourlyGeothermalLoad.UPM_default false)._start_hour) ++
        (Z8760.map (· + (7:ℚ) / 8760)).take
        ((mkLoad Z8760 Z8760 20 7 5 HourlyGeothermalLoad.UPM_default false)._start_hour))))) ∧
    ((mkLoad Z8760 Z8760 20 0 1 HourlyGeothermalLoad.UPM_default false).hourly_heating_load =
      .ok (.ndarray (numList Z8760))) ∧
    ((mkLoad Z8760 Z8760 20 0 1 HourlyGeothermalLoad.UPM_default false).hourly_cooling_load =
      .ok (.ndarray (numList Z8760))) ∧
    ((mkLoad Z8760 Z8760 20 8760 5 HourlyGeothermalLoad.UPM_default false).hourly_heating_load =
      .ok (.ndarray (numList (List.replicate 8760 1)))) := by
  have h := C3_getter_views Z8760 Z8760 20 7 5 HourlyGeothermalLoad.UPM_default false
    ValidSeries_zeros ValidSeries_zeros
  have h2 := C3_getter_views Z8760 Z8760 20 8760 5 HourlyGeothermalLoad.UPM_default false
    ValidSeries_zeros ValidSeries_zeros
  exact ⟨ValidSeries_zeros, h.1, h.2.2.2.1, h.2.2.2.2.1, h2.2.2.2.2.2⟩

theorem sum_take_le (l : List ℕ) (n : ℕ) : (l.take n).sum ≤ l.sum := by
  conv_rhs => rw [← List.take_append_drop n l]
  rw [List.sum_append]
  omega

/-- C5: `resample_to_monthly` splits an 8760-hour series into 12 contiguous
chunks whose sizes are given by `hours_per_month` (the injected `UPM`; in
all-months-equal mode `UPM` is uniform, so the chunks have the uniform size
8760/12) and which exactly partition the series with no gaps or overlaps; it
returns the per-chunk maxima as the monthly peaks and the per-chunk sums as
the monthly baseloads, so the sum of the 12 monthly baseloads equals the sum
of the input series. -/
theorem C5_resample_partition (self : HourlyGeothermalLoad) (xs : List ℚ)
    (hu : self.UPM.length = 12) (hsum : self.UPM.sum = 8760) (hxs : xs.length = 8760) :
    ((HourlyGeothermalLoad.split_sizes xs self.UPM.dropLast).length = 12) ∧
    ((HourlyGeothermalLoad.split_sizes xs self.UPM.dropLast).map List.length = self.UPM) ∧
    ((HourlyGeothermalLoad.split_sizes xs self.UPM.dropLast).flatten = xs) ∧
    (self.resample_to_monthly xs =
      ((HourlyGeothermalLoad.split_sizes xs self.UPM.dropLast).map
         HourlyGeothermalLoad.np_max,
       (HourlyGeothermalLoad.split_sizes xs self.UPM.dropLast).map (fun i => i.sum))) ∧
    ((self.resample_to_monthly xs).2.sum = xs.sum) := by
  have hne : self.UPM ≠ [] := by
    intro h
    rw [h] at hu
    simp at hu
  have hsplit : self.UPM.dropLast ++ [self.UPM.getLast hne] = self.UPM :=
    List.dropLast_append_getLast hne
  have hdl : self.UPM.dropLast.sum + self.UPM.getLast hne = 8760 := by
    have h := congrArg List.sum hsplit
    rw [List.sum_append, List.sum_cons, List.sum_nil] at h
    omega
  have hle : self.UPM.dropLast.sum ≤ xs.length := by
    rw [hxs]
    omega
  refine ⟨?_, ?_, split_sizes_flatten _ _, rfl, ?_⟩
  · rw [split_sizes_length, List.length_dropLast, hu]
  · rw [split_sizes_map_length _ _ hle, hxs,
      show 8760 - self.UPM.dropLast.sum = self.UPM.getLast hne by omega]
    exact hsplit
  · show ((HourlyGeothermalLoad.split_sizes xs self.UPM.dropLast).map
      (fun i => i.sum)).sum = xs.sum
    exact split_sizes_sum_eq _ _

theorem C5_witness :
    ((mkLoad Z8760 Z8760 20 0 1 HourlyGeothermalLoad.UPM_default false).UPM.length = 12) ∧
    ((mkLoad Z8760 Z8760 20 0 1 HourlyGeothermalLoad.UPM_default false).UPM.sum = 8760) ∧
    (((mkLoad Z8760 Z8760 20 0 1 HourlyGeothermalLoad.UPM_default
        false).resample_to_monthly Z8760).2.sum = Z8760.sum) := by
  have h1 : (mkLoad Z8760 Z8760 20 0 1 HourlyGeothermalLoad.UPM_default
      false).UPM.length = 12 := by decide
  have h2 : (mkLoad Z8760 Z8760 20 0 1 HourlyGeothermalLoad.UPM_default
      false).UPM.sum = 8760 := by decide
  exact ⟨h1, h2, (C5_resample_partition _ Z8760 h1 h2 ValidSeries_zeros.1).2.2.2.2⟩

/-- C6: `correct_for_start_month` returns the input unchanged when
`start_month` is 1 and otherwise the cyclic left-rotation of the series by
`_start_hour` positions, where `_start_hour` is the sum of
`hours_per_month[0 .. start_month-2]` (`series[start_hour:]` concatenated
with `series[:start_hour]`); the rotation preserves the element count and the
multiset of values (it is a permutation of the entries, hence a bijection on
index positions), and rotating the result further by the complementary offset
`8760 - start_hour` reconstructs the original series exactly. -/
theorem C6_rotation_lossless (self : HourlyGeothermalLoad) (A : List ℚ)
    (hA : A.length = 8760) (hsum : self.UPM.sum = 8760)
    (hm1 : 1 ≤ self.start_month) (hm12 : self.start_month ≤ 12) :
    (self._start_hour = (self.UPM.take (self.start_month - 1)).sum) ∧
    (self.start_month = 1 →
      self.correct_for_start_month (.ndarray (numList A)) = .ok (.ndarray (numList A))) ∧
    (self.correct_for_start_month (.ndarray (numList A)) =
      .ok (.ndarray (numList (A.drop self._start_hour ++ A.take self._start_hour)))) ∧
    ((A.drop self._start_hour ++ A.take self._start_hour).length = A.length) ∧
    ((A.drop self._start_hour ++ A.take self._start_hour).Perm A) ∧
    ((A.drop self._start_hour ++ A.take self._start_hour).rotate
        (8760 - self._start_hour) = A) := by
  have hs_le : self._start_hour ≤ 8760 := by
    have h := sum_take_le self.UPM (self.start_month - 1)
    rw [hsum] at h
    exact h
  have hsA : self._start_hour ≤ A.length := by
    rw [hA]
    exact hs_le
  refine ⟨rfl, ?_, correct_numArray self A, length_rot A _, ?_, ?_⟩
  · intro h1
    unfold HourlyGeothermalLoad.correct_for_start_month
    rw [if_pos h1]
  · have h := List.take_append_drop self._start_hour A
    have hp : (A.drop self._start_hour ++ A.take self._start_hour).Perm
        (A.take self._start_hour ++ A.drop self._start_hour) := List.perm_append_comm
    rw [h] at hp
    exact hp
  · rw [← List.rotate_eq_drop_append_take hsA, List.rotate_rotate,
      show self._start_hour + (8760 - self._start_hour) = 8760 by omega,
      ← hA, List.rotate_length]

theorem C6_witness :
    (Z8760.length = 8760) ∧
    ((mkLoad Z8760 Z8760 20 0 5 HourlyGeothermalLoad.UPM_default false).UPM.sum = 8760) ∧
    (1 ≤ (mkLoad Z8760 Z8760 20 0 5 HourlyGeothermalLoad.UPM_default false).start_month) ∧
    ((mkLoad Z8760 Z8760 20 0 5 HourlyGeothermalLoad.UPM_default false).start_month ≤ 12) ∧
    ((mkLoad Z8760 Z8760 20 0 5 HourlyGeothermalLoad.UPM_default
        false).correct_for_start_month (.ndarray (numList Z8760)) =
      .ok (.ndarray (numList (Z8760.drop
        (mkLoad Z8760 Z8760 20 0 5 HourlyGeothermalLoad.UPM_default false)._start_hour ++
        Z8760.take
        (mkLoad Z8760 Z8760 20 0 5 HourlyGeothermalLoad.UPM_default false)._start_hour)))) ∧
    ((Z8760.drop (mkLoad Z8760 Z8760 20 0 5 HourlyGeothermalLoad.UPM_default
        false)._start_hour ++
      Z8760.take (mkLoad Z8760 Z8760 20 0 5 HourlyGeothermalLoad.UPM_default
        false)._start_hour).rotate
        (8760 - (mkLoad Z8760 Z8760 20 0 5 HourlyGeothermalLoad.UPM_default
          false)._start_hour) = Z8760) := by
  have h1 : Z8760.length = 8760 := ValidSeries_zeros.1
  have h2 : (mkLoad Z8760 Z8760 20 0 5 HourlyGeothermalLoad.UPM_default
      false).UPM.sum = 8760 := by decide
  have h3 : 1 ≤ (mkLoad Z8760 Z8760 20 0 5 HourlyGeothermalLoad.UPM_default
      false).start_month := by decide
  have h4 : (mkLoad Z8760 Z8760 20 0 5 HourlyGeothermalLoad.UPM_default
      false).start_month ≤ 12 := by decide
  have h := C6_rotation_lossless
    (mkLoad Z8760 Z8760 20 0 5 HourlyGeothermalLoad.UPM_default false) Z8760 h1 h2 h3 h4
  exact ⟨h1, h2, h3, h4, h.2.2.1, h.2.2.2.2.2⟩

theorem cast8760_mul_div (d : ℚ) : ((8760:ℕ):ℚ) * (d / 8760) = d := by
  push_cast
  rw [mul_comm]
  exact div_mul_cancel₀ d (by norm_num)

/-- The value of `imbalance` on a canonically stored instance: the sum of the
(rotated) cooling view minus the sum of the (rotated, DHW-inclusive) heating
view, i.e. `C.sum - (H.sum + dhw)`. -/
theorem imbalance_mkLoad (H C : List ℚ) (sp : ℕ) (d : ℚ) (m : ℕ) (upm : List ℕ)
    (ame : Bool) (hH : ValidSeries H) (hC : ValidSeries C) :
    (mkLoad H C sp d m upm ame).imbalance = .ok (C.sum - (H.sum + d)) := by
  have hHl := hH.1
  have hCl := hC.1
  have hlen : (C.drop ((upm.take (m - 1)).sum) ++ C.take ((upm.take (m - 1)).sum)).length =
      ((H.map (· + d / 8760)).drop ((upm.take (m - 1)).sum) ++
        (H.map (· + d / 8760)).take ((upm.take (m - 1)).sum)).length := by
    rw [length_rot, length_rot, List.length_map, hHl, hCl]
  unfold HourlyGeothermalLoad.imbalance
  show ((mkLoad H C sp d m upm ame).hourly_cooling_load).bind _ = _
  rw [cooling_getter_mkLoad H C sp d m upm ame]
  show ((mkLoad H C sp d m upm ame).hourly_heating_load).bind _ = _
  rw [heating_getter_mkLoad H C sp d m upm ame]
  show (py_sub (.ndarray (numList _)) (.ndarray (numList _))).bind _ = _
  rw [py_sub_numArrays _ _ hlen]
  show ((PyObj.ndarray (numList _)).toSeries).bind _ = _
  rw [toSeries_numList]
  show Except.ok (List.zipWith (· - ·) _ _).sum = _
  rw [sum_zipWith_sub _ _ hlen, sum_rot, sum_rot, sum_map_add_const, hHl,
    cast8760_mul_div]

/-- The value of `baseload_cooling` on a canonically stored instance: the
monthly sums of the rotated cooling view. -/
theorem baseload_cooling_mkLoad (H C : List ℚ) (sp : ℕ) (d : ℚ) (m : ℕ) (upm : List ℕ)
    (ame : Bool) :
    (mkLoad H C sp d m upm ame).baseload_cooling =
      .ok ((mkLoad H C sp d m upm ame).resample_to_monthly
        (C.drop ((upm.take (m - 1)).sum) ++ C.take ((upm.take (m - 1)).sum))).2 := by
  unfold HourlyGeothermalLoad.baseload_cooling
  show ((mkLoad H C sp d m upm ame).hourly_cooling_load).bind _ = _
  rw [cooling_getter_mkLoad H C sp d m upm ame]
  show ((PyObj.ndarray (numList _)).toSeries).bind _ = _
  rw [toSeries_numList]
  rfl

/-- The value of `baseload_heating` on a canonically stored instance: the
monthly sums of the rotated, DHW-inclusive heating view. -/
theorem baseload_heating_mkLoad (H C : List ℚ) (sp : ℕ) (d : ℚ) (m : ℕ) (upm : List ℕ)
    (ame : Bool) :
    (mkLoad H C sp d m upm ame).baseload_heating =
      .ok ((mkLoad H C sp d m upm ame).resample_to_monthly
        ((H.map (· + d / 8760)).drop ((upm.take (m - 1)).sum) ++
          (H.map (· + d / 8760)).take ((upm.take (m - 1)).sum))).2 := by
  unfold HourlyGeothermalLoad.baseload_heating
  show ((mkLoad H C sp d m upm ame).hourly_heating_load).bind _ = _
  rw [heating_getter_mkLoad H C sp d m upm ame]
  show ((PyObj.ndarray (numList _)).toSeries).bind _ = _
  rw [toSeries_numList]
  rfl

/-- C7: `imbalance` equals the sum of the cooling load minus the sum of the
heating load over one year (the getter views: rotated, DHW included on the
heating side), equivalently the sum of the 12 monthly baseload cooling values
minus the sum of the 12 monthly baseload heating values; with dhw = 0, an
all-zero cooling array together with positive-total heating makes the
imbalance negative, and the symmetric case makes it positive. -/
theorem C7_imbalance_sign (H C : List ℚ) (sp : ℕ) (d : ℚ) (m : ℕ) (upm : List ℕ)
    (ame : Bool) (hH : ValidSeries H) (hC : ValidSeries C) :
    ((mkLoad H C sp d m upm ame).imbalance = .ok (C.sum - (H.sum + d))) ∧
    (∃ bc bh, (mkLoad H C sp d m upm ame).baseload_cooling = .ok bc ∧
      (mkLoad H C sp d m upm ame).baseload_heating = .ok bh ∧
      (mkLoad H C sp d m upm ame).imbalance = .ok (bc.sum - bh.sum)) ∧
    (d = 0 → (∀ x ∈ C, x = 0) → 0 < H.sum →
      ∃ v, (mkLoad H C sp d m upm ame).imbalance = .ok v ∧ v < 0) ∧
    (d = 0 → (∀ x ∈ H, x = 0) → 0 < C.sum →
      ∃ v, (mkLoad H C sp d m upm ame).imbalance = .ok v ∧ 0 < v) := by
  have himb := imbalance_mkLoad H C sp d m upm ame hH hC
  have hbc := baseload_cooling_mkLoad H C sp d m upm ame
  have hbh := baseload_heating_mkLoad H C sp d m upm ame
  have hbcs : (((mkLoad H C sp d m upm ame).resample_to_monthly
      (C.drop ((upm.take (m - 1)).sum) ++ C.take ((upm.take (m - 1)).sum))).2).sum =
      C.sum := by
    show ((HourlyGeothermalLoad.split_sizes _ _).map (fun i => i.sum)).sum = _
    rw [split_sizes_sum_eq, sum_rot]
  have hbhs : (((mkLoad H C sp d m upm ame).resample_to_monthly
      ((H.map (· + d / 8760)).drop ((upm.take (m - 1)).sum) ++
        (H.map (· + d / 8760)).take ((upm.take (m - 1)).sum))).2).sum = H.sum + d := by
    show ((HourlyGeothermalLoad.split_sizes _ _).map (fun i => i.sum)).sum = _
    rw [split_sizes_sum_eq, sum_rot, sum_map_add_const, hH.1, cast8760_mul_div]
  refine ⟨himb, ⟨_, _, hbc, hbh, ?_⟩, ?_, ?_⟩
  · rw [himb, hbcs, hbhs]
  · intro hd hC0 hHpos
    refine ⟨C.sum - (H.sum + d), himb, ?_⟩
    rw [List.sum_eq_zero hC0, hd]
    linarith
  · intro hd hH0 hCpos
    refine ⟨C.sum - (H.sum + d), himb, ?_⟩
    rw [List.sum_eq_zero hH0, hd]
    linarith

theorem C7_witness :
    ValidSeries Z8760 ∧
    ((mkLoad Z8760 Z8760 20 3 1 HourlyGeothermalLoad.UPM_default false).imbalance =
      .ok (Z8760.sum - (Z8760.sum + 3))) :=
  ⟨ValidSeries_zeros, (C7_imbalance_sign Z8760 Z8760 20 3 1
    HourlyGeothermalLoad.UPM_default false ValidSeries_zeros ValidSeries_zeros).1⟩

/-- `_check_input` only depends on the candidate through its element list. -/
theorem check_input_eq_of_elems (load : PyObj) (xs : List PyVal)
    (h : load.elems = some xs) :
    _check_input load =
      if xs.length ≠ 8760 then .ok false
      else if xs.any PyVal.isStr then .error .typeError
      else if np_min (xs.map PyVal.toRat) < 0 then .ok false
      else .ok true := by
  unfold _check_input
  rw [h]

theorem np_min_nonneg_iff_ne_nil (l : List ℚ) (h : l ≠ []) :
    0 ≤ np_min l ↔ ∀ y ∈ l, 0 ≤ y := by
  cases l with
  | nil => exact absurd rfl h
  | cons x t => exact np_min_nonneg_iff x t

/-- C4 counterexample: on a Python list of 8760 strings — a candidate that is
not a sequence of numbers, for which the claim demands the result `False` with
no error — `_check_input` raises a `TypeError`: the `isinstance` and length
tests pass, numpy coerces the container to a string array, `np.min` returns a
string, and comparing that string with `0` raises. -/
theorem C4_cex :
    _check_input (.pylist (List.replicate 8760 (PyVal.str ("x")))) =
      .error .typeError := by
  have h1 : (List.replicate 8760 (PyVal.str ("x"))).length = 8760 := by
    rw [List.length_replicate]
  have h2 : (List.replicate 8760 (PyVal.str ("x"))).any PyVal.isStr = true :=
    List.any_eq_true.2 ⟨PyVal.str ("x"), List.mem_replicate.2 ⟨by omega, rfl⟩, rfl⟩
  rw [check_input_eq_of_elems (.pylist (List.replicate 8760 (PyVal.str ("x"))))
    (List.replicate 8760 (PyVal.str ("x"))) rfl, if_neg (by rw [h1]; omega), if_pos h2]

/-- C4 (amended): `_check_input` never raises and returns `True` exactly when
the candidate is a sequence (an `np.ndarray`, `list` or `tuple`, not a single
scalar) of length exactly 8760 whose minimum value is at least 0, returning
`False` on every violation — provided that the candidate holds no non-numeric
(string) entries; for a length-8760 sequence containing a string the
comparison `np.min(load_array) < 0` raises a `TypeError` instead of returning
`False` (see the counterexample). -/
theorem C4_check_input_total (load : PyObj)
    (hnum : ∀ xs, load.elems = some xs → ∀ v ∈ xs, v.isStr = false) :
    ∃ b, _check_input load = .ok b ∧
      (b = true ↔ ∃ xs, load.elems = some xs ∧ xs.length = 8760 ∧
        ∀ v ∈ xs, 0 ≤ v.toRat) := by
  cases hel : load.elems with
  | none =>
    refine ⟨false, ?_, by simp [hel]⟩
    unfold _check_input
    rw [hel]
  | some xs =>
    rw [check_input_eq_of_elems load xs hel]
    have hstr : xs.any PyVal.isStr = false := by
      rw [List.any_eq_false]
      intro v hv
      rw [hnum xs hel v hv]
      exact Bool.false_ne_true
    by_cases hlen : xs.length = 8760
    · rw [if_neg (by omega), hstr]
      simp only [Bool.false_eq_true, if_false]
      have hxne : xs ≠ [] := by
        intro hc
        rw [hc] at hlen
        simp at hlen
      have hne : xs.map PyVal.toRat ≠ [] := by
        intro hc
        rw [List.map_eq_nil_iff] at hc
        exact hxne hc
      by_cases hmin : np_min (xs.map PyVal.toRat) < 0
      · refine ⟨false, by rw [if_pos hmin], ?_⟩
        simp only [Bool.false_eq_true, false_iff, hel]
        rintro ⟨ys, hys, hlen2, hpos⟩
        have hyx : ys = xs := by injection hys with h; exact h.symm
        rw [hyx] at hpos
        have h0 : ∀ y ∈ (xs.map PyVal.toRat), 0 ≤ y := by
          intro y hy
          obtain ⟨v, hv, rfl⟩ := List.mem_map.1 hy
          exact hpos v hv
        exact absurd ((np_min_nonneg_iff_ne_nil _ hne).2 h0) (not_le.2 hmin)
      · refine ⟨true, by rw [if_neg hmin], ?_⟩
        simp only [true_iff]
        refine ⟨xs, rfl, hlen, fun v hv => ?_⟩
        have h0 := (np_min_nonneg_iff_ne_nil _ hne).1 (not_lt.1 hmin)
        exact h0 (v.toRat) (List.mem_map.2 ⟨v, hv, rfl⟩)
    · refine ⟨false, by rw [if_pos (by omega)], ?_⟩
      simp only [Bool.false_eq_true, false_iff, hel]
      rintro ⟨ys, hys, hlen2, hpos⟩
      have hyx : ys = xs := by injection hys with h; exact h.symm
      rw [hyx] at hlen2
      exact hlen hlen2

theorem C4_witness :
    (∀ xs, (PyObj.ndarray (numList Z8760)).elems = some xs →
      ∀ v ∈ xs, v.isStr = false) ∧
    (∃ b, _check_input (.ndarray (numList Z8760)) = .ok b ∧
      (b = true ↔ ∃ xs, (PyObj.ndarray (numList Z8760)).elems = some xs ∧
        xs.length = 8760 ∧ ∀ v ∈ xs, 0 ≤ v.toRat)) := by
  have hnum : ∀ xs, (PyObj.ndarray (numList Z8760)).elems = some xs →
      ∀ v ∈ xs, v.isStr = false := by
    intro xs h v hv
    obtain rfl : xs = numList Z8760 := by injection h with h2; exact h2.symm
    obtain ⟨q, hq, rfl⟩ := List.mem_map.1 hv
    rfl
  exact ⟨hnum, C4_check_input_total _ hnum⟩

end GHEtool
